import Mathlib

/-!
Shallow embedding of the `PerformanceReviewFHE` Solidity contract
(`src/README.md`, lines 154-385).

Modelling conventions:
* An `euint32` ciphertext handle is modelled as `Option Nat`: `none` is the
  zero (uninitialized) handle, `some v` is an initialized handle whose
  plaintext is `v`.  `FHE.asEuint32 v` trivially encrypts, producing an
  initialized handle `some (v % 2 ^ 32)`; `FHE.isInitialized` is `Option.isSome`.
* Solidity mappings are total functions returning the zero default.
* A reverting call is `Except.error e`: it produces no new state, which models
  the rollback of every mutation and the discarding of every emitted event.
* Solidity 0.8 checked arithmetic on `uint32`: subtraction reverts on
  underflow, addition reverts on overflow (panic 0x11), modelled by
  `ContractError.arithmeticOverflow`.
* `FHE.checkSignatures(requestId, cleartexts, proof)` is modelled by an
  explicit verification oracle `checkSig : Nat → List Nat → List Nat → Bool`
  passed to each callback; a `false` result reverts with
  `ContractError.invalidProof`.
* `abi.decode(cleartexts, (uint32[]))` followed by indexed access is modelled
  by pattern-matching the required number of list elements, reverting with
  `ContractError.decodeError` when too few are present; each decoded word is
  reduced to its `uint32` value with `mask32`.
-/

namespace PerformanceReviewFHE

/-- Errors corresponding to the revert paths of the contract. -/
inductive ContractError where
  | invalidRequest
  | invalidProof
  | alreadyCalibrated
  | groupNotFound
  | arithmeticOverflow
  | decodeError
  deriving DecidableEq, Repr

/-- Events emitted by the contract. -/
inductive Event where
  | ReviewSubmitted (reviewId timestamp : Nat)
  | AnalysisRequested (reviewId : Nat)
  | BiasDetected (reviewId biasScore : Nat)
  | ReviewCalibrated (reviewId : Nat)
  deriving DecidableEq, Repr

/-- Struct `EncryptedReview` (lines 161-168). -/
structure EncryptedReview where
  reviewId : Nat
  encryptedPerformanceScore : Option Nat
  encryptedReviewerGroup : Option Nat
  encryptedRevieweeGroup : Option Nat
  encryptedCalibrationScore : Option Nat
  timestamp : Nat
  deriving DecidableEq, Repr

/-- Struct `EncryptedBiasModel` (lines 170-174). -/
structure EncryptedBiasModel where
  modelId : Nat
  encryptedBiasThreshold : Option Nat
  encryptedCalibrationRange : Option Nat
  deriving DecidableEq, Repr

/-- Struct `DecryptedAnalysis` (lines 176-181). -/
structure DecryptedAnalysis where
  biasScore : Nat
  calibratedScore : Nat
  isBiased : Bool
  isCalibrated : Bool
  deriving DecidableEq, Repr

/-- Zero value of `EncryptedReview`, returned by a mapping for unset keys. -/
def defaultEncryptedReview : EncryptedReview :=
  { reviewId := 0
    encryptedPerformanceScore := none
    encryptedReviewerGroup := none
    encryptedRevieweeGroup := none
    encryptedCalibrationScore := none
    timestamp := 0 }

/-- Zero value of `EncryptedBiasModel`. -/
def defaultEncryptedBiasModel : EncryptedBiasModel :=
  { modelId := 0
    encryptedBiasThreshold := none
    encryptedCalibrationRange := none }

/-- Zero value of `DecryptedAnalysis`. -/
def defaultDecryptedAnalysis : DecryptedAnalysis :=
  { biasScore := 0
    calibratedScore := 0
    isBiased := false
    isCalibrated := false }

/-- Storage of the contract (lines 183-192) plus the emitted event log. -/
structure ContractState where
  reviewCount : Nat
  modelCount : Nat
  performanceReviews : Nat → EncryptedReview
  biasModels : Nat → EncryptedBiasModel
  reviewAnalyses : Nat → DecryptedAnalysis
  encryptedGroupStats : Nat → Option Nat
  groupList : List Nat
  requestToReviewId : Nat → Nat
  eventLog : List Event

/-- State of a freshly deployed contract: every storage slot is zero. -/
def initialState : ContractState :=
  { reviewCount := 0
    modelCount := 0
    performanceReviews := fun _ => defaultEncryptedReview
    biasModels := fun _ => defaultEncryptedBiasModel
    reviewAnalyses := fun _ => defaultDecryptedAnalysis
    encryptedGroupStats := fun _ => none
    groupList := []
    requestToReviewId := fun _ => 0
    eventLog := [] }

/-- Point update of a mapping. -/
def mapUpdate {α : Type} (m : Nat → α) (k : Nat) (v : α) : Nat → α :=
  fun i => if i = k then v else m i

/-- Reduction of a word to its `uint32` value. -/
def mask32 (x : Nat) : Nat := x % 2 ^ 32

/-- Function `calculateGroupAverage` (lines 330-334): the source returns the
placeholder constant 75 for every group. -/
def calculateGroupAverage (_groupId : Nat) : Nat := 75

/-- Function `abs` (lines 336-338): on an unsigned argument the condition
`x >= 0` is always true, so the function is the identity; the dead branch is
the two's-complement negation of `x`. -/
def abs (x : Nat) : Nat :=
  if 0 ≤ x then x else mask32 (2 ^ 32 - x)

/-- Function `submitPerformanceReview` (lines 209-234).  Returns the updated
state and the assigned review id; emits `ReviewSubmitted`.  Note that
`encryptedCalibrationScore` is set to `FHE.asEuint32(0)`, an initialized
handle of value 0. -/
def submitPerformanceReview (st : ContractState)
    (encryptedPerformanceScore encryptedReviewerGroup encryptedRevieweeGroup : Option Nat)
    (timestamp : Nat) : ContractState × Nat :=
  ({ st with
      reviewCount := st.reviewCount + 1
      performanceReviews := mapUpdate st.performanceReviews (st.reviewCount + 1)
        { reviewId := st.reviewCount + 1
          encryptedPerformanceScore := encryptedPerformanceScore
          encryptedReviewerGroup := encryptedReviewerGroup
          encryptedRevieweeGroup := encryptedRevieweeGroup
          encryptedCalibrationScore := some (mask32 0)
          timestamp := timestamp }
      reviewAnalyses := mapUpdate st.reviewAnalyses (st.reviewCount + 1) defaultDecryptedAnalysis
      eventLog := Event.ReviewSubmitted (st.reviewCount + 1) timestamp :: st.eventLog },
   st.reviewCount + 1)

/-- Function `addBiasModel` (lines 236-248). -/
def addBiasModel (st : ContractState)
    (encryptedBiasThreshold encryptedCalibrationRange : Option Nat) : ContractState × Nat :=
  ({ st with
      modelCount := st.modelCount + 1
      biasModels := mapUpdate st.biasModels (st.modelCount + 1)
        { modelId := st.modelCount + 1
          encryptedBiasThreshold := encryptedBiasThreshold
          encryptedCalibrationRange := encryptedCalibrationRange } },
   st.modelCount + 1)

/-- Function `requestBiasAnalysis` (lines 250-264).  The only storage effects
are the registration `requestToReviewId[reqId] = reviewId` and the
`AnalysisRequested` event; the ciphertext batch goes to the oracle.  The
oracle-assigned request id is the parameter `reqId`.  No existence check is
performed on the review or the model. -/
def requestBiasAnalysis (st : ContractState) (reviewId _modelId reqId : Nat) : ContractState :=
  { st with
      requestToReviewId := mapUpdate st.requestToReviewId reqId reviewId
      eventLog := Event.AnalysisRequested reviewId :: st.eventLog }

/-- Function `analyzeBias` (lines 266-294), the bias-analysis decryption
callback.  Checks the zero sentinel of `requestToReviewId`, verifies the
signatures, decodes four `uint32` words, computes the bias score with the
checked subtraction of Solidity 0.8 (reverting on underflow), stores
`biasScore` and `isBiased`, and emits `BiasDetected` when biased. -/
def analyzeBias (checkSig : Nat → List Nat → List Nat → Bool)
    (st : ContractState) (requestId : Nat) (cleartexts proof : List Nat) :
    Except ContractError ContractState :=
  if st.requestToReviewId requestId = 0 then
    .error .invalidRequest
  else if checkSig requestId cleartexts proof = false then
    .error .invalidProof
  else
    match cleartexts with
    | performanceRaw :: reviewerRaw :: revieweeRaw :: thresholdRaw :: _ =>
      if mask32 reviewerRaw = mask32 revieweeRaw then
        .ok (recordAnalysis st (st.requestToReviewId requestId) 0 (mask32 thresholdRaw))
      else if calculateGroupAverage (mask32 reviewerRaw) ≤ mask32 performanceRaw then
        .ok (recordAnalysis st (st.requestToReviewId requestId)
              ( abs (mask32 performanceRaw - calculateGroupAverage (mask32 reviewerRaw)))
              (mask32 thresholdRaw))
      else
        .error .arithmeticOverflow
    | _ => .error .decodeError
where
  /-- Lines 286-293 of the source: set `biasScore` and `isBiased` on the
  analysis of `reviewId`, emitting `BiasDetected` when biased. -/
  recordAnalysis (st : ContractState) (reviewId biasScore biasThreshold : Nat) :
      ContractState :=
    let isBiased := decide (biasScore > biasThreshold)
    let st1 :=
      { st with
          reviewAnalyses := mapUpdate st.reviewAnalyses reviewId
            { st.reviewAnalyses reviewId with biasScore := biasScore, isBiased := isBiased } }
    if isBiased then
      { st1 with eventLog := Event.BiasDetected reviewId biasScore :: st1.eventLog }
    else
      st1

/-- Function `requestCalibration` (lines 296-306).  Reverts with
`Already calibrated` when `encryptedCalibrationScore` is an initialized
handle; otherwise registers the oracle token.  The encrypted adjustment is
sent to the oracle and has no storage effect. -/
def requestCalibration (st : ContractState) (reviewId : Nat)
    (_encryptedAdjustment : Option Nat) (reqId : Nat) : Except ContractError ContractState :=
  if (st.performanceReviews reviewId).encryptedCalibrationScore.isSome then
    .error .alreadyCalibrated
  else
    .ok { st with requestToReviewId := mapUpdate st.requestToReviewId reqId reviewId }

/-- Function `applyCalibration` (lines 308-328), the calibration decryption
callback.  Checks the zero sentinel, verifies the signatures, decodes two
`uint32` words, adds them with the checked addition of Solidity 0.8
(reverting on overflow), stores the re-encrypted calibration score and the
analysis fields, and emits `ReviewCalibrated`. -/
def applyCalibration (checkSig : Nat → List Nat → List Nat → Bool)
    (st : ContractState) (requestId : Nat) (cleartexts proof : List Nat) :
    Except ContractError ContractState :=
  if st.requestToReviewId requestId = 0 then
    .error .invalidRequest
  else if checkSig requestId cleartexts proof = false then
    .error .invalidProof
  else
    match cleartexts with
    | originalRaw :: adjustmentRaw :: _ =>
      if mask32 originalRaw + mask32 adjustmentRaw < 2 ^ 32 then
        .ok { st with
          performanceReviews := mapUpdate st.performanceReviews
            (st.requestToReviewId requestId)
            { st.performanceReviews (st.requestToReviewId requestId) with
                encryptedCalibrationScore :=
                  some (mask32 originalRaw + mask32 adjustmentRaw) }
          reviewAnalyses := mapUpdate st.reviewAnalyses (st.requestToReviewId requestId)
            { st.reviewAnalyses (st.requestToReviewId requestId) with
                calibratedScore := mask32 originalRaw + mask32 adjustmentRaw
                isCalibrated := true }
          eventLog := Event.ReviewCalibrated (st.requestToReviewId requestId) :: st.eventLog }
      else
        .error .arithmeticOverflow
    | _ => .error .decodeError

/-- Function `getReviewAnalysis` (lines 340-348): a total mapping read
returning the four analysis fields; there is no existence check and no
failure path. -/
def getReviewAnalysis (st : ContractState) (reviewId : Nat) : Nat × Nat × Bool × Bool :=
  ((st.reviewAnalyses reviewId).biasScore,
   (st.reviewAnalyses reviewId).calibratedScore,
   (st.reviewAnalyses reviewId).isBiased,
   (st.reviewAnalyses reviewId).isCalibrated)

/-- Function `requestGroupStats` (lines 358-367). -/
def requestGroupStats (st : ContractState) (groupId reqId : Nat) :
    Except ContractError ContractState :=
  if (st.encryptedGroupStats groupId).isSome then
    .ok { st with requestToReviewId := mapUpdate st.requestToReviewId reqId groupId }
  else
    .error .groupNotFound

/-- Function `decryptGroupStats` (lines 369-380): reads the registry without
a zero check, verifies the signatures, decodes one word and performs no
storage mutation. -/
def decryptGroupStats (checkSig : Nat → List Nat → List Nat → Bool)
    (st : ContractState) (requestId : Nat) (cleartexts proof : List Nat) :
    Except ContractError ContractState :=
  if checkSig requestId cleartexts proof = false then
    .error .invalidProof
  else
    match cleartexts with
    | _ :: _ => .ok st
    | _ => .error .decodeError

/-- One public transaction of the contract that did not revert. -/
inductive Step : ContractState → ContractState → Prop where
  | submit (st : ContractState) (a b c : Option Nat) (ts : Nat) :
      Step st (submitPerformanceReview st a b c ts).1
  | addModel (st : ContractState) (a b : Option Nat) :
      Step st (addBiasModel st a b).1
  | reqAnalysis (st : ContractState) (r m q : Nat) :
      Step st (requestBiasAnalysis st r m q)
  | reqCalib (st : ContractState) (r : Nat) (adj : Option Nat) (q : Nat)
      (st' : ContractState) (h : requestCalibration st r adj q = .ok st') :
      Step st st'
  | analyze (cs : Nat → List Nat → List Nat → Bool) (st : ContractState)
      (q : Nat) (cl pf : List Nat) (st' : ContractState)
      (h : analyzeBias cs st q cl pf = .ok st') :
      Step st st'
  | applyCal (cs : Nat → List Nat → List Nat → Bool) (st : ContractState)
      (q : Nat) (cl pf : List Nat) (st' : ContractState)
      (h : applyCalibration cs st q cl pf = .ok st') :
      Step st st'
  | reqGroup (st : ContractState) (g q : Nat) (st' : ContractState)
      (h : requestGroupStats st g q = .ok st') :
      Step st st'
  | decGroup (cs : Nat → List Nat → List Nat → Bool) (st : ContractState)
      (q : Nat) (cl pf : List Nat) (st' : ContractState)
      (h : decryptGroupStats cs st q cl pf = .ok st') :
      Step st st'

/-- States reachable from a fresh deployment by non-reverting transactions. -/
inductive Reachable : ContractState → Prop where
  | init : Reachable initialState
  | step {st st' : ContractState} (h : Reachable st) (hs : Step st st') : Reachable st'

/-! ## Concrete scenario states used by counterexamples and witnesses -/

/-- Verification oracle accepting every proof. -/
def csAll : Nat → List Nat → List Nat → Bool := fun _ _ _ => true

/-- Verification oracle accepting exactly the nonempty proofs. -/
def csNonempty : Nat → List Nat → List Nat → Bool := fun _ _ proof => !proof.isEmpty

/-- State after submitting one review (id 1). -/
def stSubmitted : ContractState :=
  (submitPerformanceReview initialState (some 80) (some 1) (some 1) 0).1

/-- State after additionally registering oracle token 5 for a bias analysis of
review 1 against model 1. -/
def stRegistered : ContractState := requestBiasAnalysis stSubmitted 1 1 5

/-- State after the bias-analysis callback for token 5 succeeded with
cleartexts 80, 1, 1, 10. -/
def stAnalyzed : ContractState :=
  (analyzeBias csAll stRegistered 5 [80, 1, 1, 10] []).toOption.getD initialState

/-! ## Helper lemmas -/

lemma mapUpdate_same {α : Type} (m : Nat → α) (k : Nat) (v : α) :
    mapUpdate m k v k = v := by
  simp [mapUpdate]

lemma mapUpdate_ne {α : Type} (m : Nat → α) (k : Nat) (v : α) {i : Nat} (h : i ≠ k) :
    mapUpdate m k v i = m i := by
  simp [mapUpdate, h]

/-- Both decryption callbacks reject a token whose registry slot holds the
zero default, reverting with `Invalid request` before any other work. -/
lemma unknownToken_rejected (cs : Nat → List Nat → List Nat → Bool)
    (st : ContractState) (t : Nat) (cl pf : List Nat)
    (h : st.requestToReviewId t = 0) :
    analyzeBias cs st t cl pf = .error .invalidRequest ∧
    applyCalibration cs st t cl pf = .error .invalidRequest := by
  constructor
  · simp [analyzeBias, h]
  · simp [applyCalibration, h]

/-- The helper that writes an analysis result changes exactly the
`reviewAnalyses` slot of the target id, setting `biasScore` and `isBiased`. -/
lemma recordAnalysis_reviewAnalyses (st : ContractState) (rid s thr : Nat) :
    (analyzeBias.recordAnalysis st rid s thr).reviewAnalyses =
      mapUpdate st.reviewAnalyses rid
        { st.reviewAnalyses rid with biasScore := s, isBiased := decide (s > thr) } := by
  simp only [analyzeBias.recordAnalysis]
  split <;> rfl

/-- Storage effects of the helper writing an analysis result: only the
`biasScore` and `isBiased` fields of the target analysis change (plus the
event log); every other storage slot is preserved. -/
lemma recordAnalysis_spec (st : ContractState) (rid s thr : Nat) :
    (analyzeBias.recordAnalysis st rid s thr).requestToReviewId = st.requestToReviewId ∧
    (analyzeBias.recordAnalysis st rid s thr).performanceReviews = st.performanceReviews ∧
    (analyzeBias.recordAnalysis st rid s thr).reviewCount = st.reviewCount ∧
    (∀ i, ((analyzeBias.recordAnalysis st rid s thr).reviewAnalyses i).calibratedScore =
            (st.reviewAnalyses i).calibratedScore ∧
          ((analyzeBias.recordAnalysis st rid s thr).reviewAnalyses i).isCalibrated =
            (st.reviewAnalyses i).isCalibrated) ∧
    (∀ i, i ≠ rid →
      (analyzeBias.recordAnalysis st rid s thr).reviewAnalyses i = st.reviewAnalyses i) := by
  refine ⟨?_, ?_, ?_, fun i => ?_, fun i hi => ?_⟩
  · simp only [analyzeBias.recordAnalysis]
    split <;> rfl
  · simp only [analyzeBias.recordAnalysis]
    split <;> rfl
  · simp only [analyzeBias.recordAnalysis]
    split <;> rfl
  · rw [recordAnalysis_reviewAnalyses]
    by_cases hik : i = rid
    · subst hik
      simp [mapUpdate]
    · rw [mapUpdate_ne _ _ _ hik]
      exact ⟨rfl, rfl⟩
  · rw [recordAnalysis_reviewAnalyses]
    exact mapUpdate_ne _ _ _ hi

/-- A successful bias-analysis callback leaves the token registered and its
new state is a `recordAnalysis` of the resolved review id. -/
lemma analyzeBias_ok_shape {cs : Nat → List Nat → List Nat → Bool}
    {st : ContractState} {q : Nat} {cl pf : List Nat} {st' : ContractState}
    (h : analyzeBias cs st q cl pf = .ok st') :
    st.requestToReviewId q ≠ 0 ∧
    ∃ s thr, st' = analyzeBias.recordAnalysis st (st.requestToReviewId q) s thr := by
  unfold analyzeBias at h
  split at h
  · exact absurd h (by simp)
  next h0 =>
    split at h
    · exact absurd h (by simp)
    · split at h
      · split at h
        · injection h with h
          exact ⟨h0, _, _, h.symm⟩
        · split at h
          · injection h with h
            exact ⟨h0, _, _, h.symm⟩
          · exact absurd h (by simp)
      · exact absurd h (by simp)

/-- Frame conditions of a successful bias-analysis callback. -/
lemma analyzeBias_ok_spec {cs : Nat → List Nat → List Nat → Bool}
    {st : ContractState} {q : Nat} {cl pf : List Nat} {st' : ContractState}
    (h : analyzeBias cs st q cl pf = .ok st') :
    st.requestToReviewId q ≠ 0 ∧
    st'.requestToReviewId = st.requestToReviewId ∧
    st'.performanceReviews = st.performanceReviews ∧
    st'.reviewCount = st.reviewCount ∧
    (∀ i, (st'.reviewAnalyses i).calibratedScore = (st.reviewAnalyses i).calibratedScore ∧
          (st'.reviewAnalyses i).isCalibrated = (st.reviewAnalyses i).isCalibrated) ∧
    (∀ i, i ≠ st.requestToReviewId q → st'.reviewAnalyses i = st.reviewAnalyses i) := by
  obtain ⟨h0, s, thr, rfl⟩ := analyzeBias_ok_shape h
  obtain ⟨e1, e2, e3, e4, e5⟩ := recordAnalysis_spec st (st.requestToReviewId q) s thr
  exact ⟨h0, e1, e2, e3, e4, e5⟩

/-- Frame conditions of a successful calibration callback: the resolved id is
nonzero, the registry entry survives, and no other review or analysis record
is touched. -/
lemma applyCalibration_ok_spec {cs : Nat → List Nat → List Nat → Bool}
    {st : ContractState} {q : Nat} {cl pf : List Nat} {st' : ContractState}
    (h : applyCalibration cs st q cl pf = .ok st') :
    st.requestToReviewId q ≠ 0 ∧
    st'.requestToReviewId = st.requestToReviewId ∧
    st'.reviewCount = st.reviewCount ∧
    (∀ i, i ≠ st.requestToReviewId q →
      st'.performanceReviews i = st.performanceReviews i ∧
      st'.reviewAnalyses i = st.reviewAnalyses i) := by
  unfold applyCalibration at h
  split at h
  · exact absurd h (by simp)
  next h0 =>
    split at h
    · exact absurd h (by simp)
    · split at h
      · split at h
        · injection h with h
          subst h
          exact ⟨h0, rfl, rfl, fun i hi => ⟨mapUpdate_ne _ _ _ hi, mapUpdate_ne _ _ _ hi⟩⟩
        · exact absurd h (by simp)
      · exact absurd h (by simp)

/-- A single non-reverting transaction never writes storage slot 0 of
`performanceReviews`: submission allocates id `reviewCount + 1 ≥ 1` and the
calibration callback only writes the nonzero id it resolved. -/
lemma step_slot_zero {st st' : ContractState} (hs : Step st st')
    (h0 : st.performanceReviews 0 = defaultEncryptedReview) :
    st'.performanceReviews 0 = defaultEncryptedReview := by
  cases hs with
  | submit _ a b c ts =>
    simp only [submitPerformanceReview]
    rw [mapUpdate_ne _ _ _ (by omega)]
    exact h0
  | addModel _ a b => exact h0
  | reqAnalysis _ r m q => exact h0
  | reqCalib _ r adj q _ hok =>
    unfold requestCalibration at hok
    split at hok
    · exact absurd hok (by simp)
    · injection hok with hok
      subst hok
      exact h0
  | analyze cs _ q cl pf _ hok =>
    rw [(analyzeBias_ok_spec hok).2.2.1]
    exact h0
  | applyCal cs _ q cl pf _ hok =>
    obtain ⟨hne, -, -, hfr⟩ := applyCalibration_ok_spec hok
    rw [(hfr 0 (Ne.symm hne)).1]
    exact h0
  | reqGroup _ g q _ hok =>
    unfold requestGroupStats at hok
    split at hok
    · injection hok with hok
      subst hok
      exact h0
    · exact absurd hok (by simp)
  | decGroup cs _ q cl pf _ hok =>
    unfold decryptGroupStats at hok
    split at hok
    · exact absurd hok (by simp)
    · split at hok
      · injection hok with hok
        subst hok
        exact h0
      · exact absurd hok (by simp)

/-- Storage slot 0 of `performanceReviews` is never written in any reachable
state. -/
lemma reachable_slot_zero {st : ContractState} (h : Reachable st) :
    st.performanceReviews 0 = defaultEncryptedReview := by
  induction h with
  | init => rfl
  | step h hs ih => exact step_slot_zero hs ih

/-- The scenario state with one submitted review is reachable. -/
lemma reachable_stSubmitted : Reachable stSubmitted :=
  Reachable.step Reachable.init (Step.submit initialState (some 80) (some 1) (some 1) 0)

/-- The scenario state with one submitted review and one registered bias
analysis token is reachable. -/
lemma reachable_stRegistered : Reachable stRegistered :=
  Reachable.step reachable_stSubmitted (Step.reqAnalysis stSubmitted 1 1 5)

/-- A valid registered token with a passing proof and at least two decoded
words makes the calibration callback succeed, producing exactly this state. -/
lemma applyCalibration_ok_result {cs : Nat → List Nat → List Nat → Bool}
    {st : ContractState} {q o a : Nat} {rest pf : List Nat}
    (hq : st.requestToReviewId q ≠ 0) (hcs : cs q (o :: a :: rest) pf = true)
    (hsum : mask32 o + mask32 a < 2 ^ 32) :
    applyCalibration cs st q (o :: a :: rest) pf = .ok
      { st with
        performanceReviews := mapUpdate st.performanceReviews (st.requestToReviewId q)
          { st.performanceReviews (st.requestToReviewId q) with
              encryptedCalibrationScore := some (mask32 o + mask32 a) }
        reviewAnalyses := mapUpdate st.reviewAnalyses (st.requestToReviewId q)
          { st.reviewAnalyses (st.requestToReviewId q) with
              calibratedScore := mask32 o + mask32 a
              isCalibrated := true }
        eventLog := Event.ReviewCalibrated (st.requestToReviewId q) :: st.eventLog } := by
  simp [applyCalibration, hq, hcs, hsum]
  exact hsum

/-! ## Claims -/

/-- Claim C1, counterexample.  The claim states that after a callback for a
token has been processed, a redelivery with the same token fails with
`UnknownRequest` and the entry is removed at the first successful
resolution.  In the code the entry of token 5 survives its successful
resolution (it is still mapped to review 1) and a second delivery of the
very same callback succeeds again instead of failing. -/
theorem c1_counterexample :
    (analyzeBias csAll stRegistered 5 [80, 1, 1, 10] []).isOk = true ∧
    stAnalyzed.requestToReviewId 5 = 1 ∧
    (analyzeBias csAll stAnalyzed 5 [80, 1, 1, 10] []).isOk = true := by
  decide

/-- Claim C1 (amended): the registry entry of a token is never removed; both
callbacks leave `requestToReviewId` entirely unchanged on success, so
resolution is not single-use.  Only a token whose registry slot holds the
zero default is rejected with `Invalid request` (`UnknownRequest`). -/
theorem c1_amended_token_not_single_use (cs : Nat → List Nat → List Nat → Bool)
    (st : ContractState) (t : Nat) (cl pf : List Nat) :
    (∀ st1, analyzeBias cs st t cl pf = .ok st1 →
       st1.requestToReviewId = st.requestToReviewId) ∧
    (∀ st1, applyCalibration cs st t cl pf = .ok st1 →
       st1.requestToReviewId = st.requestToReviewId) ∧
    (st.requestToReviewId t = 0 →
       analyzeBias cs st t cl pf = .error .invalidRequest ∧
       applyCalibration cs st t cl pf = .error .invalidRequest) :=
  ⟨fun _ h => (analyzeBias_ok_spec h).2.1,
   fun _ h => (applyCalibration_ok_spec h).2.1,
   fun h => unknownToken_rejected cs st t cl pf h⟩

/-- Claim C1 witness: the successful analysis callback left the registry
unchanged. -/
theorem c1_amended_witness : stAnalyzed.requestToReviewId = stRegistered.requestToReviewId :=
  (c1_amended_token_not_single_use csAll stRegistered 5 [80, 1, 1, 10] []).1 stAnalyzed (by rfl)

/-- Claim C2, code bug.  Review 1 has just been created and was never
calibrated, yet `requestCalibration` reverts with `Already calibrated`:
`submitPerformanceReview` stores `FHE.asEuint32(0)` in
`encryptedCalibrationScore`, an initialized handle, so the guard
`isInitialized == false` fails for every review the moment it is created. -/
theorem c2_code_bug_fresh_review_rejected :
    (stSubmitted.reviewAnalyses 1).isCalibrated = false ∧
    (stSubmitted.performanceReviews 1).encryptedCalibrationScore = some 0 ∧
    requestCalibration stSubmitted 1 (some 5) 7 = .error .alreadyCalibrated :=
  ⟨by decide, by decide, rfl⟩

/-- Claim C3, code bug.  For a registered token with cleartexts giving
performanceScore 70, reviewerGroup 1, revieweeGroup 2 and threshold 10, the
claim expects biasScore to be the absolute difference 5 of 70 and the
group average 75; the code instead computes the checked uint32 subtraction
70 - 75, which reverts with an arithmetic underflow panic, so the entire
callback fails. -/
theorem c3_code_bug_underflow_reverts :
    stRegistered.requestToReviewId 5 = 1 ∧
    analyzeBias csAll stRegistered 5 [70, 1, 2, 10] [] = .error .arithmeticOverflow :=
  ⟨rfl, rfl⟩

/-- Claim C4, counterexample.  The claim states the stored calibratedScore is
the sum mod 2 to the 32 on overflow; at originalScore 4294967295 and
adjustment 1 the code instead reverts with a checked-arithmetic overflow
(Solidity 0.8) and stores nothing. -/
theorem c4_counterexample :
    applyCalibration csAll stRegistered 5 [4294967295, 1] [] = .error .arithmeticOverflow :=
  rfl

/-- Claim C4 (amended): when the uint32 sum does not overflow, the stored
calibratedScore equals originalScore + adjustment, isCalibrated is set true
and the re-encrypted sum is stored on the review; when the sum reaches
2 to the 32 the callback reverts with an arithmetic overflow instead of
wrapping. -/
theorem c4_amended_checked_addition (cs : Nat → List Nat → List Nat → Bool)
    (st : ContractState) (q o a : Nat) (rest pf : List Nat)
    (hq : st.requestToReviewId q ≠ 0)
    (hcs : cs q (o :: a :: rest) pf = true) :
    (mask32 o + mask32 a < 2 ^ 32 →
      ∃ st1, applyCalibration cs st q (o :: a :: rest) pf = .ok st1 ∧
        (st1.reviewAnalyses (st.requestToReviewId q)).calibratedScore = mask32 o + mask32 a ∧
        (st1.reviewAnalyses (st.requestToReviewId q)).isCalibrated = true ∧
        (st1.performanceReviews (st.requestToReviewId q)).encryptedCalibrationScore =
          some (mask32 o + mask32 a)) ∧
    (2 ^ 32 ≤ mask32 o + mask32 a →
      applyCalibration cs st q (o :: a :: rest) pf = .error .arithmeticOverflow) := by
  constructor
  · intro hlt
    refine ⟨_, applyCalibration_ok_result hq hcs hlt, ?_, ?_, ?_⟩
    · simp [mapUpdate]
    · simp [mapUpdate]
    · simp [mapUpdate]
  · intro hge
    have hnlt : ¬ (mask32 o + mask32 a < 2 ^ 32) := by omega
    simp [applyCalibration, hq, hcs, hnlt]
    exact hge

/-- Claim C4 witness: a non-overflowing calibration of review 1 stores 87,
and an overflowing one reverts. -/
theorem c4_amended_witness :
    applyCalibration csAll stRegistered 5 [4294967290, 10] [] = .error .arithmeticOverflow :=
  (c4_amended_checked_addition csAll stRegistered 5 4294967290 10 [] []
    (by decide) rfl).2 (by decide)

/-- Claim C5: a callback delivered with a token that was never issued finds
the zero default in the registry and both callbacks revert with
`Invalid request` (`UnknownRequest`).  A revert returns no new state, which
models that no review, no analysis record and no event log entry is
mutated. -/
theorem c5_unknown_token_rejected (cs : Nat → List Nat → List Nat → Bool)
    (st : ContractState) (t : Nat) (cl pf : List Nat)
    (h : st.requestToReviewId t = 0) :
    analyzeBias cs st t cl pf = .error .invalidRequest ∧
    applyCalibration cs st t cl pf = .error .invalidRequest :=
  unknownToken_rejected cs st t cl pf h

/-- Claim C5 witness: token 17 was never issued on the fresh contract and
both callbacks reject it. -/
theorem c5_witness :
    analyzeBias csAll initialState 17 [80, 1, 1, 10] [] = .error .invalidRequest ∧
    applyCalibration csAll initialState 17 [80, 1, 1, 10] [] = .error .invalidRequest :=
  c5_unknown_token_rejected csAll initialState 17 [80, 1, 1, 10] [] rfl

/-- Claim C6, counterexample.  The claim states that after a failed proof
verification the token is consumed, so a redelivery fails with
`UnknownRequest`.  In the code the failed call reverts, the entry survives,
and redelivering the same token with a valid proof succeeds. -/
theorem c6_counterexample :
    analyzeBias csNonempty stRegistered 5 [80, 1, 1, 10] [] = .error .invalidProof ∧
    (analyzeBias csNonempty stRegistered 5 [80, 1, 1, 10] [0]).isOk = true :=
  ⟨rfl, by decide⟩

/-- Claim C6 (amended): with a registered token and a failing proof both
callbacks revert with `InvalidProof` and no state is mutated (the revert
also rolls back nothing because nothing was written); the token is NOT
consumed, since a revert leaves the registry entry in place, so a later
redelivery of the same token is processed normally. -/
theorem c6_amended_invalid_proof (cs : Nat → List Nat → List Nat → Bool)
    (st : ContractState) (t : Nat) (cl pf : List Nat)
    (h0 : st.requestToReviewId t ≠ 0) (hcs : cs t cl pf = false) :
    analyzeBias cs st t cl pf = .error .invalidProof ∧
    applyCalibration cs st t cl pf = .error .invalidProof := by
  constructor
  · simp [analyzeBias, h0, hcs]
  · simp [applyCalibration, h0, hcs]

/-- Claim C6 witness: token 5 with an empty (failing) proof is rejected with
`InvalidProof` by both callbacks. -/
theorem c6_amended_witness :
    analyzeBias csNonempty stRegistered 5 [80, 1, 1, 10] [] = .error .invalidProof ∧
    applyCalibration csNonempty stRegistered 5 [80, 1, 1, 10] [] = .error .invalidProof :=
  c6_amended_invalid_proof csNonempty stRegistered 5 [80, 1, 1, 10] [] (by decide) rfl

/-- Claim C7, counterexample.  Token 5 was registered by
`requestBiasAnalysis` (kind BiasAnalysis) for review 1, yet the calibration
callback resolves it and calibrates review 1: the registry records no
operation kind, so a token of one kind is accepted by a callback of a
different kind. -/
theorem c7_counterexample :
    (applyCalibration csAll stRegistered 5 [80, 7] []).isOk = true ∧
    (((applyCalibration csAll stRegistered 5 [80, 7] []).toOption.getD
        initialState).reviewAnalyses 1).isCalibrated = true := by
  decide

/-- Claim C7 (amended): the registry is a bare id-to-id mapping recording
only the subject id and no operation kind; resolving a token yields only the
id, and a token registered by a request of one kind is accepted by a
callback of another kind: a token registered by `requestBiasAnalysis` for
review r is resolved by `applyCalibration`, which calibrates review r. -/
theorem c7_amended_registry_kindless (st : ContractState)
    (cs : Nat → List Nat → List Nat → Bool) (r m q o a : Nat) (rest pf : List Nat)
    (hr : r ≠ 0) (hcs : cs q (o :: a :: rest) pf = true)
    (hsum : mask32 o + mask32 a < 2 ^ 32) :
    (requestBiasAnalysis st r m q).requestToReviewId q = r ∧
    ∃ st1, applyCalibration cs (requestBiasAnalysis st r m q) q (o :: a :: rest) pf = .ok st1 ∧
      (st1.reviewAnalyses r).isCalibrated = true := by
  have hreg : (requestBiasAnalysis st r m q).requestToReviewId q = r := by
    simp [requestBiasAnalysis, mapUpdate]
  have hq : (requestBiasAnalysis st r m q).requestToReviewId q ≠ 0 := by
    rw [hreg]
    exact hr
  refine ⟨hreg, _, applyCalibration_ok_result hq hcs hsum, ?_⟩
  simp [mapUpdate, hreg]

/-- Claim C7 witness: token 9 registered for a bias analysis of review 3 is
accepted by the calibration callback and calibrates review 3. -/
theorem c7_amended_witness :
    (requestBiasAnalysis initialState 3 1 9).requestToReviewId 9 = 3 ∧
    ∃ st1, applyCalibration csAll (requestBiasAnalysis initialState 3 1 9) 9 [60, 2] [] =
        .ok st1 ∧ (st1.reviewAnalyses 3).isCalibrated = true :=
  c7_amended_registry_kindless initialState csAll 3 1 9 60 2 [] []
    (by decide) rfl (by decide)

/-- Claim C8, counterexample.  Querying the analysis of review id 1 on a
fresh contract, where no review was ever created, does not fail: the claim
expects a `NotFound` error, but `getReviewAnalysis` has no failure path at
all and returns the zeroed mapping default. -/
theorem c8_counterexample :
    getReviewAnalysis initialState 1 = (0, 0, false, false) :=
  rfl

/-- Claim C8 (amended): `getReviewAnalysis` is a total read with no error
path; for a review id that was never created it returns the zeroed mapping
default (0, 0, false, false) instead of failing with `NotFound`. -/
theorem c8_amended_total_default (reviewId : Nat) :
    getReviewAnalysis initialState reviewId = (0, 0, false, false) :=
  rfl

/-- Claim C9: a successful bias-analysis callback changes only the
`biasScore` and `isBiased` fields of the resolved analysis record: the
`calibratedScore` and `isCalibrated` fields of every analysis record are
unchanged, every other analysis record is untouched, and the whole
`performanceReviews` store (all fields of every `EncryptedReview`) is left
as it was. -/
theorem c9_analysis_frame {cs : Nat → List Nat → List Nat → Bool}
    {st : ContractState} {q : Nat} {cl pf : List Nat} {st1 : ContractState}
    (h : analyzeBias cs st q cl pf = .ok st1) :
    st1.performanceReviews = st.performanceReviews ∧
    (∀ i, (st1.reviewAnalyses i).calibratedScore = (st.reviewAnalyses i).calibratedScore ∧
          (st1.reviewAnalyses i).isCalibrated = (st.reviewAnalyses i).isCalibrated) ∧
    (∀ i, i ≠ st.requestToReviewId q → st1.reviewAnalyses i = st.reviewAnalyses i) := by
  obtain ⟨-, -, e3, -, e5, e6⟩ := analyzeBias_ok_spec h
  exact ⟨e3, e5, e6⟩

/-- Claim C9 witness: the concrete successful analysis of review 1 left the
review store, the calibration fields of review 1 and the analysis record of
review 2 unchanged. -/
theorem c9_witness :
    stAnalyzed.performanceReviews = stRegistered.performanceReviews ∧
    (stAnalyzed.reviewAnalyses 1).isCalibrated = (stRegistered.reviewAnalyses 1).isCalibrated ∧
    stAnalyzed.reviewAnalyses 2 = stRegistered.reviewAnalyses 2 := by
  obtain ⟨e1, e2, e3⟩ := c9_analysis_frame
    (show analyzeBias csAll stRegistered 5 [80, 1, 1, 10] [] = .ok stAnalyzed from rfl)
  exact ⟨e1, (e2 1).2, e3 2 (by decide)⟩

/-- Claim C10: every review id assigned by `submitPerformanceReview` is
`reviewCount + 1 ≥ 1`, and in every reachable state a registered token whose
subject is an existing review (a nonzero record in the store) resolves to a
nonzero id, so the zero-sentinel check of the callbacks never rejects a
genuine callback for an existing review. -/
theorem c10_zero_sentinel_safe {st : ContractState} (h : Reachable st) :
    (∀ a b c ts, 1 ≤ (submitPerformanceReview st a b c ts).2) ∧
    (∀ t, st.performanceReviews (st.requestToReviewId t) ≠ defaultEncryptedReview →
       st.requestToReviewId t ≠ 0) := by
  refine ⟨fun a b c ts => Nat.succ_le_succ (Nat.zero_le _), fun t hne h0 => ?_⟩
  exact hne (by rw [h0]; exact reachable_slot_zero h)

/-- Claim C10 witness: in the reachable state with review 1 and token 5, the
next assigned id is at least 1 and the registered token resolves to a
nonzero id. -/
theorem c10_witness :
    1 ≤ (submitPerformanceReview stRegistered none none none 0).2 ∧
    stRegistered.requestToReviewId 5 ≠ 0 :=
  ⟨(c10_zero_sentinel_safe reachable_stRegistered).1 none none none 0,
   (c10_zero_sentinel_safe reachable_stRegistered).2 5 (by decide)⟩

end PerformanceReviewFHE
